import Mathlib

/-!
Shallow embedding of the conversation-flow engine of the customer-support
chatbot backend: the static question trees and resolution-path tables, the
condition matcher, the answer validator/normalizer, the resolution builder
and the in-memory session store.  Impure ingredients of the source
(`uuidv4()`, `new Date()`, `Math.random()`) are passed in explicitly as
parameters; timestamps are milliseconds as natural numbers; the JavaScript
`Map` is an insertion-ordered association list.
-/

namespace Support

/-- Closed enumeration of issue categories (backend type definitions). -/
inductive IssueCategory
  | ORDER_STATUS
  | DELIVERY_PROBLEM
  | PAYMENT_ISSUE
  | REFUND_REQUEST
  | PRODUCT_DEFECT
  | ACCOUNT_ACCESS
  | BILLING_INQUIRY
  | CANCELLATION
  | OTHER
  deriving DecidableEq, Repr

/-- Question types. -/
inductive QuestionType
  | SINGLE_CHOICE
  | MULTIPLE_CHOICE
  | TEXT_INPUT
  | YES_NO
  | DATE
  | ORDER_ID
  deriving DecidableEq, Repr

/-- Resolution kinds. -/
inductive ResolutionType
  | SELF_SERVICE
  | AUTOMATED_ACTION
  | ESCALATE_AGENT
  | ESCALATE_SPECIALIST
  | INFORMATION_PROVIDED
  deriving DecidableEq, Repr

/-- Conversation modes. -/
inductive ConversationMode
  | SYSTEM_INITIATED
  | USER_INITIATED
  deriving DecidableEq, Repr

/-- The tags of a validation rule (`'required' | 'pattern' | 'minLength' |
'maxLength' | 'custom'`). -/
inductive RuleType
  | required
  | pattern
  | minLength
  | maxLength
  | custom
  deriving DecidableEq, Repr

/-- A validation rule's `value` is `string | number` in the source. -/
inductive RuleValue
  | str (s : String)
  | num (n : Nat)
  deriving DecidableEq, Repr

/-- A validation rule. The optional `value` field is `Option RuleValue`. -/
structure ValidationRule where
  type : RuleType
  value : Option RuleValue
  errorMessage : String
  deriving DecidableEq, Repr

/-- A question node.  The source's optional fields `options?`,
`nextQuestionMap?` and `validationRules?` are modelled as lists, with the
empty list standing for an absent field; every consumer of these fields in
the source treats an absent field and an empty collection identically
(`!question.nextQuestionMap` followed by a lookup that misses, a length-0
check on `validationRules`, an index check against `options`). -/
structure Question where
  id : String
  text : String
  type : QuestionType
  options : List String := []
  nextQuestionMap : List (String × String) := []
  validationRules : List ValidationRule := []
  deriving DecidableEq, Repr

/-- A question tree: category, root id, and the id-indexed question map
(insertion-ordered association list, as in the source object literal). -/
structure QuestionTree where
  category : IssueCategory
  rootQuestionId : String
  questions : List (String × Question)
  deriving DecidableEq, Repr

/-- The `expectedAnswer` of a condition is `string | string[]`. -/
inductive ExpectedAnswer
  | str (s : String)
  | list (l : List String)
  deriving DecidableEq, Repr

/-- Condition operators.  The source literal `'in'` is a Lean keyword and is
rendered `inOp`. -/
inductive CondOp
  | equals
  | contains
  | inOp
  | greaterThan
  | lessThan
  deriving DecidableEq, Repr

/-- A resolution condition. -/
structure ResolutionCondition where
  questionId : String
  expectedAnswer : ExpectedAnswer
  operator : CondOp
  deriving DecidableEq, Repr

/-- A resolution path.  Optional collections (`steps?`, `requiresData?`) are
lists with `[]` for absent, other optional fields are `Option`. -/
structure ResolutionPath where
  id : String
  category : IssueCategory
  type : ResolutionType
  conditions : List ResolutionCondition
  steps : List String := []
  escalationReason : Option String := none
  estimatedTime : Option String := none
  requiresData : List String := []
  deriving DecidableEq, Repr

/-- First-match lookup in an association list, mirroring a JavaScript object
property or `Map.get` access. -/
def assocGet {α : Type} (m : List (String × α)) (k : String) : Option α :=
  (m.find? (fun p => p.1 = k)).map (fun p => p.2)

/-- JavaScript `String.prototype.trim`, spelt over the character list. -/
def jsTrim (s : String) : String :=
  ⟨((s.data.dropWhile Char.isWhitespace).reverse.dropWhile Char.isWhitespace).reverse⟩

/-- JavaScript `String.prototype.toLowerCase` (ASCII, as every compared
literal is ASCII). -/
def jsToLower (s : String) : String :=
  ⟨s.data.map Char.toLower⟩

/-- JavaScript `String.prototype.toUpperCase` (ASCII). -/
def jsToUpper (s : String) : String :=
  ⟨s.data.map Char.toUpper⟩

/-- The numeric value of an all-digit string, as `parseInt(s, 10)` computes
it. -/
def digitsToNat (s : String) : Nat :=
  s.data.foldl (fun n c => n * 10 + (c.toNat - 48)) 0

/-- Order status question tree. -/
def ORDER_STATUS_TREE : QuestionTree :=
  { category := .ORDER_STATUS
    rootQuestionId := "order_status_1"
    questions :=
      [ ("order_status_1",
         { id := "order_status_1"
           text := "Do you have your order number?"
           type := .YES_NO
           nextQuestionMap := [("yes", "order_status_2"), ("no", "order_status_3")] })
      , ("order_status_2",
         { id := "order_status_2"
           text := "Please provide your order number (format: ORD-XXXXX)"
           type := .ORDER_ID
           validationRules :=
             [ { type := .required, value := none
                 errorMessage := "Order number is required" }
             , { type := .pattern, value := some (.str "^ORD-[0-9]{5}$")
                 errorMessage := "Order number must be in format ORD-XXXXX" } ] })
      , ("order_status_3",
         { id := "order_status_3"
           text := "Can you provide the email address used for the order?"
           type := .TEXT_INPUT
           validationRules :=
             [ { type := .required, value := none
                 errorMessage := "Email address is required" }
             , { type := .pattern, value := some (.str "^[^\\s@]+@[^\\s@]+\\.[^\\s@]+$")
                 errorMessage := "Please provide a valid email address" } ] }) ] }

/-- Delivery problem question tree. -/
def DELIVERY_PROBLEM_TREE : QuestionTree :=
  { category := .DELIVERY_PROBLEM
    rootQuestionId := "delivery_1"
    questions :=
      [ ("delivery_1",
         { id := "delivery_1"
           text := "What type of delivery problem are you experiencing?"
           type := .SINGLE_CHOICE
           options :=
             [ "Package is delayed", "Package delivered to wrong address"
             , "Package is damaged", "Package is lost/missing", "Other delivery issue" ]
           nextQuestionMap :=
             [ ("Package is delayed", "delivery_2")
             , ("Package delivered to wrong address", "delivery_3")
             , ("Package is damaged", "delivery_4")
             , ("Package is lost/missing", "delivery_5")
             , ("Other delivery issue", "delivery_6") ] })
      , ("delivery_2",
         { id := "delivery_2"
           text := "How many days past the expected delivery date is your package?"
           type := .SINGLE_CHOICE
           options := ["1-2 days", "3-5 days", "More than 5 days"] })
      , ("delivery_3",
         { id := "delivery_3"
           text := "Do you know where the package was delivered?"
           type := .YES_NO
           nextQuestionMap := [("yes", "delivery_3a"), ("no", "delivery_3b")] })
      , ("delivery_3a",
         { id := "delivery_3a"
           text := "Please describe the location where it was delivered"
           type := .TEXT_INPUT })
      , ("delivery_3b",
         { id := "delivery_3b"
           text := "Have you checked with neighbors or building management?"
           type := .YES_NO })
      , ("delivery_4",
         { id := "delivery_4"
           text := "Can you describe the damage to the package?"
           type := .TEXT_INPUT
           validationRules :=
             [ { type := .required, value := none
                 errorMessage := "Please describe the damage" }
             , { type := .minLength, value := some (.num 10)
                 errorMessage := "Please provide more details (at least 10 characters)" } ] })
      , ("delivery_5",
         { id := "delivery_5"
           text := "When was the package supposed to be delivered?"
           type := .DATE })
      , ("delivery_6",
         { id := "delivery_6"
           text := "Please describe your delivery issue"
           type := .TEXT_INPUT
           validationRules :=
             [ { type := .required, value := none
                 errorMessage := "Please describe the issue" } ] }) ] }

/-- Payment issue question tree. -/
def PAYMENT_ISSUE_TREE : QuestionTree :=
  { category := .PAYMENT_ISSUE
    rootQuestionId := "payment_1"
    questions :=
      [ ("payment_1",
         { id := "payment_1"
           text := "What payment issue are you experiencing?"
           type := .SINGLE_CHOICE
           options :=
             [ "Payment was declined", "Charged incorrect amount", "Charged multiple times"
             , "Payment method not accepted", "Other payment issue" ]
           nextQuestionMap :=
             [ ("Payment was declined", "payment_2")
             , ("Charged incorrect amount", "payment_3")
             , ("Charged multiple times", "payment_4")
             , ("Payment method not accepted", "payment_5")
             , ("Other payment issue", "payment_6") ] })
      , ("payment_2",
         { id := "payment_2"
           text := "Have you verified that your payment method has sufficient funds?"
           type := .YES_NO })
      , ("payment_3",
         { id := "payment_3"
           text := "What amount were you charged, and what amount did you expect?"
           type := .TEXT_INPUT
           validationRules :=
             [ { type := .required, value := none
                 errorMessage := "Please provide both amounts" } ] })
      , ("payment_4",
         { id := "payment_4"
           text := "How many times were you charged?"
           type := .SINGLE_CHOICE
           options := ["2 times", "3 times", "More than 3 times"] })
      , ("payment_5",
         { id := "payment_5"
           text := "Which payment method are you trying to use?"
           type := .SINGLE_CHOICE
           options := ["Credit Card", "Debit Card", "PayPal", "Other"] })
      , ("payment_6",
         { id := "payment_6"
           text := "Please describe your payment issue"
           type := .TEXT_INPUT
           validationRules :=
             [ { type := .required, value := none
                 errorMessage := "Please describe the issue" } ] }) ] }

/-- Refund request question tree. -/
def REFUND_REQUEST_TREE : QuestionTree :=
  { category := .REFUND_REQUEST
    rootQuestionId := "refund_1"
    questions :=
      [ ("refund_1",
         { id := "refund_1"
           text := "What is the reason for your refund request?"
           type := .SINGLE_CHOICE
           options :=
             [ "Product defective or damaged", "Wrong item received", "Changed my mind"
             , "Better price elsewhere", "Other reason" ]
           nextQuestionMap :=
             [ ("Product defective or damaged", "refund_2")
             , ("Wrong item received", "refund_3")
             , ("Changed my mind", "refund_4")
             , ("Better price elsewhere", "refund_4")
             , ("Other reason", "refund_5") ] })
      , ("refund_2",
         { id := "refund_2"
           text := "Have you already returned the item?"
           type := .YES_NO
           nextQuestionMap := [("yes", "refund_2a"), ("no", "refund_2b")] })
      , ("refund_2a",
         { id := "refund_2a"
           text := "Please provide the return tracking number"
           type := .TEXT_INPUT
           validationRules :=
             [ { type := .required, value := none
                 errorMessage := "Tracking number is required" } ] })
      , ("refund_2b",
         { id := "refund_2b"
           text := "Would you like instructions on how to return the item?"
           type := .YES_NO })
      , ("refund_3",
         { id := "refund_3"
           text := "What item did you receive instead?"
           type := .TEXT_INPUT
           validationRules :=
             [ { type := .required, value := none
                 errorMessage := "Please describe what you received" } ] })
      , ("refund_4",
         { id := "refund_4"
           text := "Is the item still in its original packaging and unused?"
           type := .YES_NO })
      , ("refund_5",
         { id := "refund_5"
           text := "Please explain your reason for the refund"
           type := .TEXT_INPUT
           validationRules :=
             [ { type := .required, value := none
                 errorMessage := "Please provide a reason" }
             , { type := .minLength, value := some (.num 10)
                 errorMessage := "Please provide more details" } ] }) ] }

/-- Product defect question tree. -/
def PRODUCT_DEFECT_TREE : QuestionTree :=
  { category := .PRODUCT_DEFECT
    rootQuestionId := "defect_1"
    questions :=
      [ ("defect_1",
         { id := "defect_1"
           text := "What type of defect or issue does the product have?"
           type := .SINGLE_CHOICE
           options :=
             [ "Product is broken or damaged", "Product does not work as expected"
             , "Missing parts or accessories", "Wrong product received"
             , "Product different from description" ] })
      , ("defect_2",
         { id := "defect_2"
           text := "When did you first notice the defect?"
           type := .SINGLE_CHOICE
           options :=
             [ "Upon delivery", "Within first week", "After 1-2 weeks"
             , "After more than 2 weeks" ] }) ] }

/-- Account access question tree. -/
def ACCOUNT_ACCESS_TREE : QuestionTree :=
  { category := .ACCOUNT_ACCESS
    rootQuestionId := "account_1"
    questions :=
      [ ("account_1",
         { id := "account_1"
           text := "What account issue are you experiencing?"
           type := .SINGLE_CHOICE
           options :=
             [ "Forgot password", "Account locked", "Cannot receive verification email"
             , "Username issues", "Other account issue" ]
           nextQuestionMap :=
             [ ("Forgot password", "account_2")
             , ("Account locked", "account_3")
             , ("Cannot receive verification email", "account_4")
             , ("Username issues", "account_5")
             , ("Other account issue", "account_6") ] })
      , ("account_2",
         { id := "account_2"
           text := "Have you tried using the \"Forgot Password\" link on the login page?"
           type := .YES_NO })
      , ("account_3",
         { id := "account_3"
           text := "Do you know why your account was locked?"
           type := .YES_NO })
      , ("account_4",
         { id := "account_4"
           text := "Have you checked your spam/junk folder?"
           type := .YES_NO })
      , ("account_5",
         { id := "account_5"
           text := "Please describe the username issue"
           type := .TEXT_INPUT })
      , ("account_6",
         { id := "account_6"
           text := "Please describe your account issue"
           type := .TEXT_INPUT
           validationRules :=
             [ { type := .required, value := none
                 errorMessage := "Please describe the issue" } ] }) ] }

/-- Cancellation question tree. -/
def CANCELLATION_TREE : QuestionTree :=
  { category := .CANCELLATION
    rootQuestionId := "cancel_1"
    questions :=
      [ ("cancel_1",
         { id := "cancel_1"
           text := "Has your order already shipped?"
           type := .YES_NO
           nextQuestionMap := [("yes", "cancel_2"), ("no", "cancel_3")] })
      , ("cancel_2",
         { id := "cancel_2"
           text := "Since your order has shipped, would you like to refuse delivery or return it after receiving?"
           type := .SINGLE_CHOICE
           options := ["Refuse delivery", "Return after receiving", "Keep the order"] })
      , ("cancel_3",
         { id := "cancel_3"
           text := "Your order can be cancelled. Would you like to proceed with cancellation?"
           type := .YES_NO }) ] }

/-- Billing inquiry question tree (declared inline in `QUESTION_TREES`). -/
def BILLING_INQUIRY_TREE : QuestionTree :=
  { category := .BILLING_INQUIRY
    rootQuestionId := "billing_1"
    questions :=
      [ ("billing_1",
         { id := "billing_1"
           text := "What billing information do you need?"
           type := .SINGLE_CHOICE
           options := ["Invoice copy", "Billing statement", "Charge details", "Other"] }) ] }

/-- Catch-all question tree (declared inline in `QUESTION_TREES`). -/
def OTHER_TREE : QuestionTree :=
  { category := .OTHER
    rootQuestionId := "other_1"
    questions :=
      [ ("other_1",
         { id := "other_1"
           text := "Please describe your issue in detail"
           type := .TEXT_INPUT
           validationRules :=
             [ { type := .required, value := none
                 errorMessage := "Please describe your issue" }
             , { type := .minLength, value := some (.num 20)
                 errorMessage := "Please provide more details (at least 20 characters)" } ] }) ] }

/-- Map of category to question tree, the single source of truth for
conversation flows. -/
def QUESTION_TREES : IssueCategory → QuestionTree
  | .ORDER_STATUS => ORDER_STATUS_TREE
  | .DELIVERY_PROBLEM => DELIVERY_PROBLEM_TREE
  | .PAYMENT_ISSUE => PAYMENT_ISSUE_TREE
  | .REFUND_REQUEST => REFUND_REQUEST_TREE
  | .PRODUCT_DEFECT => PRODUCT_DEFECT_TREE
  | .ACCOUNT_ACCESS => ACCOUNT_ACCESS_TREE
  | .BILLING_INQUIRY => BILLING_INQUIRY_TREE
  | .CANCELLATION => CANCELLATION_TREE
  | .OTHER => OTHER_TREE

/-- Retrieves the question tree for a specific category. -/
def getQuestionTree (category : IssueCategory) : QuestionTree :=
  QUESTION_TREES category

/-- Retrieves a specific question from a category's tree. -/
def getQuestion (category : IssueCategory) (questionId : String) : Option Question :=
  assocGet (QUESTION_TREES category).questions questionId

/-- Determines the next question based on the current question and answer;
`none` when the current question is unknown, has no `nextQuestionMap`, or
the map has no entry for the answer. -/
def getNextQuestionId (category : IssueCategory) (currentQuestionId : String)
    (answer : String) : Option String :=
  match getQuestion category currentQuestionId with
  | none => none
  | some question => assocGet question.nextQuestionMap answer

/-- Order status resolutions. -/
def ORDER_STATUS_RESOLUTIONS : List ResolutionPath :=
  [ { id := "order_status_found"
      category := .ORDER_STATUS
      type := .INFORMATION_PROVIDED
      conditions := [{ questionId := "order_status_2", expectedAnswer := .str "", operator := .contains }]
      requiresData := ["orderId"]
      estimatedTime := some "Immediate" }
  , { id := "order_status_email_lookup"
      category := .ORDER_STATUS
      type := .INFORMATION_PROVIDED
      conditions := [{ questionId := "order_status_3", expectedAnswer := .str "", operator := .contains }]
      requiresData := ["email"]
      estimatedTime := some "Immediate" } ]

/-- Delivery problem resolutions. -/
def DELIVERY_PROBLEM_RESOLUTIONS : List ResolutionPath :=
  [ { id := "delivery_delayed_minor"
      category := .DELIVERY_PROBLEM
      type := .INFORMATION_PROVIDED
      conditions :=
        [ { questionId := "delivery_1", expectedAnswer := .str "Package is delayed", operator := .equals }
        , { questionId := "delivery_2", expectedAnswer := .str "1-2 days", operator := .equals } ]
      steps :=
        [ "Check tracking information for latest updates"
        , "Delivery delays of 1-2 days are common due to weather or high volume"
        , "Your package should arrive within the next 24-48 hours" ]
      estimatedTime := some "24-48 hours" }
  , { id := "delivery_delayed_major"
      category := .DELIVERY_PROBLEM
      type := .ESCALATE_AGENT
      conditions :=
        [ { questionId := "delivery_1", expectedAnswer := .str "Package is delayed", operator := .equals }
        , { questionId := "delivery_2", expectedAnswer := .list ["3-5 days", "More than 5 days"], operator := .inOp } ]
      escalationReason := some "Significant delivery delay requires investigation"
      estimatedTime := some "24 hours for agent response" }
  , { id := "delivery_wrong_address"
      category := .DELIVERY_PROBLEM
      type := .ESCALATE_AGENT
      conditions :=
        [ { questionId := "delivery_1", expectedAnswer := .str "Package delivered to wrong address", operator := .equals } ]
      escalationReason := some "Wrong address delivery requires carrier investigation"
      estimatedTime := some "24-48 hours for resolution" }
  , { id := "delivery_damaged"
      category := .DELIVERY_PROBLEM
      type := .ESCALATE_AGENT
      conditions :=
        [ { questionId := "delivery_1", expectedAnswer := .str "Package is damaged", operator := .equals } ]
      escalationReason := some "Damaged package requires inspection and potential replacement"
      estimatedTime := some "48 hours for resolution" }
  , { id := "delivery_lost"
      category := .DELIVERY_PROBLEM
      type := .ESCALATE_SPECIALIST
      conditions :=
        [ { questionId := "delivery_1", expectedAnswer := .str "Package is lost/missing", operator := .equals } ]
      escalationReason := some "Lost package requires carrier claim and replacement processing"
      estimatedTime := some "3-5 business days" } ]

/-- Payment issue resolutions. -/
def PAYMENT_ISSUE_RESOLUTIONS : List ResolutionPath :=
  [ { id := "payment_declined_self_service"
      category := .PAYMENT_ISSUE
      type := .SELF_SERVICE
      conditions :=
        [ { questionId := "payment_1", expectedAnswer := .str "Payment was declined", operator := .equals }
        , { questionId := "payment_2", expectedAnswer := .str "no", operator := .equals } ]
      steps :=
        [ "Verify your payment method has sufficient funds"
        , "Check with your bank that the card is not blocked"
        , "Ensure billing address matches your bank records"
        , "Try a different payment method if issue persists" ]
      estimatedTime := some "Immediate" }
  , { id := "payment_declined_escalate"
      category := .PAYMENT_ISSUE
      type := .ESCALATE_AGENT
      conditions :=
        [ { questionId := "payment_1", expectedAnswer := .str "Payment was declined", operator := .equals }
        , { questionId := "payment_2", expectedAnswer := .str "yes", operator := .equals } ]
      escalationReason := some "Payment declined despite sufficient funds - requires investigation"
      estimatedTime := some "24 hours" }
  , { id := "payment_wrong_amount"
      category := .PAYMENT_ISSUE
      type := .ESCALATE_AGENT
      conditions :=
        [ { questionId := "payment_1", expectedAnswer := .str "Charged incorrect amount", operator := .equals } ]
      escalationReason := some "Incorrect charge amount requires billing review"
      estimatedTime := some "24-48 hours" }
  , { id := "payment_multiple_charges"
      category := .PAYMENT_ISSUE
      type := .ESCALATE_SPECIALIST
      conditions :=
        [ { questionId := "payment_1", expectedAnswer := .str "Charged multiple times", operator := .equals } ]
      escalationReason := some "Multiple charges require immediate refund processing"
      estimatedTime := some "24 hours for refund initiation" } ]

/-- Refund request resolutions. -/
def REFUND_REQUEST_RESOLUTIONS : List ResolutionPath :=
  [ { id := "refund_defective_returned"
      category := .REFUND_REQUEST
      type := .AUTOMATED_ACTION
      conditions :=
        [ { questionId := "refund_1", expectedAnswer := .str "Product defective or damaged", operator := .equals }
        , { questionId := "refund_2", expectedAnswer := .str "yes", operator := .equals } ]
      steps :=
        [ "Refund will be processed once return is received"
        , "Expected processing time: 3-5 business days after receipt"
        , "Refund will be issued to original payment method" ]
      requiresData := ["returnTrackingNumber"]
      estimatedTime := some "3-5 business days after return receipt" }
  , { id := "refund_defective_not_returned"
      category := .REFUND_REQUEST
      type := .SELF_SERVICE
      conditions :=
        [ { questionId := "refund_1", expectedAnswer := .str "Product defective or damaged", operator := .equals }
        , { questionId := "refund_2", expectedAnswer := .str "no", operator := .equals }
        , { questionId := "refund_2b", expectedAnswer := .str "yes", operator := .equals } ]
      steps :=
        [ "Print the prepaid return label from your order page"
        , "Package the item securely in original packaging if possible"
        , "Attach the label and drop off at any carrier location"
        , "Refund will be processed 3-5 days after we receive the return" ]
      estimatedTime := some "7-10 business days total" }
  , { id := "refund_changed_mind_eligible"
      category := .REFUND_REQUEST
      type := .SELF_SERVICE
      conditions :=
        [ { questionId := "refund_1", expectedAnswer := .list ["Changed my mind", "Better price elsewhere"], operator := .inOp }
        , { questionId := "refund_4", expectedAnswer := .str "yes", operator := .equals } ]
      steps :=
        [ "You can return the item within 30 days of purchase"
        , "Item must be unused and in original packaging"
        , "Print return label from your order page"
        , "Refund will be processed minus original shipping cost" ]
      estimatedTime := some "7-10 business days" }
  , { id := "refund_changed_mind_ineligible"
      category := .REFUND_REQUEST
      type := .ESCALATE_AGENT
      conditions :=
        [ { questionId := "refund_1", expectedAnswer := .list ["Changed my mind", "Better price elsewhere"], operator := .inOp }
        , { questionId := "refund_4", expectedAnswer := .str "no", operator := .equals } ]
      escalationReason := some "Item not in original condition - requires case-by-case review"
      estimatedTime := some "24-48 hours" } ]

/-- Product defect resolutions. -/
def PRODUCT_DEFECT_RESOLUTIONS : List ResolutionPath :=
  [ { id := "defect_immediate"
      category := .PRODUCT_DEFECT
      type := .ESCALATE_AGENT
      conditions :=
        [ { questionId := "defect_2", expectedAnswer := .str "Upon delivery", operator := .equals } ]
      escalationReason := some "Defect upon delivery - eligible for immediate replacement"
      estimatedTime := some "24 hours for replacement processing" }
  , { id := "defect_warranty"
      category := .PRODUCT_DEFECT
      type := .ESCALATE_AGENT
      conditions :=
        [ { questionId := "defect_2", expectedAnswer := .list ["Within first week", "After 1-2 weeks"], operator := .inOp } ]
      escalationReason := some "Product defect within warranty period"
      estimatedTime := some "48 hours for resolution" }
  , { id := "defect_late"
      category := .PRODUCT_DEFECT
      type := .ESCALATE_SPECIALIST
      conditions :=
        [ { questionId := "defect_2", expectedAnswer := .str "After more than 2 weeks", operator := .equals } ]
      escalationReason := some "Late defect report - requires warranty verification"
      estimatedTime := some "3-5 business days" } ]

/-- Account access resolutions. -/
def ACCOUNT_ACCESS_RESOLUTIONS : List ResolutionPath :=
  [ { id := "account_password_self_service"
      category := .ACCOUNT_ACCESS
      type := .SELF_SERVICE
      conditions :=
        [ { questionId := "account_1", expectedAnswer := .str "Forgot password", operator := .equals }
        , { questionId := "account_2", expectedAnswer := .str "no", operator := .equals } ]
      steps :=
        [ "Go to the login page"
        , "Click \"Forgot Password\" link"
        , "Enter your email address"
        , "Check your email for reset link (check spam folder)"
        , "Follow the link to create a new password" ]
      estimatedTime := some "Immediate" }
  , { id := "account_password_escalate"
      category := .ACCOUNT_ACCESS
      type := .ESCALATE_AGENT
      conditions :=
        [ { questionId := "account_1", expectedAnswer := .str "Forgot password", operator := .equals }
        , { questionId := "account_2", expectedAnswer := .str "yes", operator := .equals } ]
      escalationReason := some "Password reset not working - requires manual intervention"
      estimatedTime := some "2-4 hours" }
  , { id := "account_locked"
      category := .ACCOUNT_ACCESS
      type := .ESCALATE_AGENT
      conditions :=
        [ { questionId := "account_1", expectedAnswer := .str "Account locked", operator := .equals } ]
      escalationReason := some "Account locked - requires security review and unlock"
      estimatedTime := some "4-6 hours" }
  , { id := "account_email_issue"
      category := .ACCOUNT_ACCESS
      type := .SELF_SERVICE
      conditions :=
        [ { questionId := "account_1", expectedAnswer := .str "Cannot receive verification email", operator := .equals }
        , { questionId := "account_4", expectedAnswer := .str "no", operator := .equals } ]
      steps :=
        [ "Check your spam/junk folder"
        , "Add noreply@shopease.com to your contacts"
        , "Check if your email provider is blocking our emails"
        , "Try requesting a new verification email" ]
      estimatedTime := some "Immediate" } ]

/-- Cancellation resolutions. -/
def CANCELLATION_RESOLUTIONS : List ResolutionPath :=
  [ { id := "cancel_not_shipped"
      category := .CANCELLATION
      type := .AUTOMATED_ACTION
      conditions :=
        [ { questionId := "cancel_1", expectedAnswer := .str "no", operator := .equals }
        , { questionId := "cancel_3", expectedAnswer := .str "yes", operator := .equals } ]
      steps :=
        [ "Your order has been cancelled"
        , "Refund will be processed within 3-5 business days"
        , "You will receive a confirmation email shortly" ]
      estimatedTime := some "3-5 business days for refund" }
  , { id := "cancel_shipped_refuse"
      category := .CANCELLATION
      type := .SELF_SERVICE
      conditions :=
        [ { questionId := "cancel_1", expectedAnswer := .str "yes", operator := .equals }
        , { questionId := "cancel_2", expectedAnswer := .str "Refuse delivery", operator := .equals } ]
      steps :=
        [ "When the carrier attempts delivery, refuse to accept the package"
        , "The package will be returned to us automatically"
        , "Refund will be processed once we receive the return"
        , "Expected timeline: 7-10 business days" ]
      estimatedTime := some "7-10 business days" }
  , { id := "cancel_shipped_return"
      category := .CANCELLATION
      type := .SELF_SERVICE
      conditions :=
        [ { questionId := "cancel_1", expectedAnswer := .str "yes", operator := .equals }
        , { questionId := "cancel_2", expectedAnswer := .str "Return after receiving", operator := .equals } ]
      steps :=
        [ "Accept the delivery when it arrives"
        , "Initiate a return from your order page"
        , "Print the prepaid return label"
        , "Ship the item back to us"
        , "Refund will be processed after we receive it" ]
      estimatedTime := some "10-14 business days" } ]

/-- Billing inquiry resolutions. -/
def BILLING_INQUIRY_RESOLUTIONS : List ResolutionPath :=
  [ { id := "billing_invoice"
      category := .BILLING_INQUIRY
      type := .SELF_SERVICE
      conditions :=
        [ { questionId := "billing_1", expectedAnswer := .str "Invoice copy", operator := .equals } ]
      steps :=
        [ "Log in to your account"
        , "Go to Order History"
        , "Click on the order you need an invoice for"
        , "Click \"Download Invoice\" button"
        , "Invoice will be downloaded as PDF" ]
      estimatedTime := some "Immediate" }
  , { id := "billing_other"
      category := .BILLING_INQUIRY
      type := .ESCALATE_AGENT
      conditions :=
        [ { questionId := "billing_1", expectedAnswer := .list ["Billing statement", "Charge details", "Other"], operator := .inOp } ]
      escalationReason := some "Billing inquiry requires detailed account review"
      estimatedTime := some "24 hours" } ]

/-- Other issues resolutions (the only category whose single fallback path
carries an empty condition list). -/
def OTHER_RESOLUTIONS : List ResolutionPath :=
  [ { id := "other_escalate"
      category := .OTHER
      type := .ESCALATE_AGENT
      conditions := []
      escalationReason := some "Issue does not fit predefined categories - requires human review"
      estimatedTime := some "24-48 hours" } ]

/-- Complete mapping of categories to their resolution paths. -/
def RESOLUTION_PATHS : IssueCategory → List ResolutionPath
  | .ORDER_STATUS => ORDER_STATUS_RESOLUTIONS
  | .DELIVERY_PROBLEM => DELIVERY_PROBLEM_RESOLUTIONS
  | .PAYMENT_ISSUE => PAYMENT_ISSUE_RESOLUTIONS
  | .REFUND_REQUEST => REFUND_REQUEST_RESOLUTIONS
  | .PRODUCT_DEFECT => PRODUCT_DEFECT_RESOLUTIONS
  | .ACCOUNT_ACCESS => ACCOUNT_ACCESS_RESOLUTIONS
  | .BILLING_INQUIRY => BILLING_INQUIRY_RESOLUTIONS
  | .CANCELLATION => CANCELLATION_RESOLUTIONS
  | .OTHER => OTHER_RESOLUTIONS

/-- Substring test mirroring the JavaScript `hay.includes(needle)`. -/
def jsIncludesAux (needle : List Char) : List Char → Bool
  | [] => needle.isEmpty
  | c :: t => needle.isPrefixOf (c :: t) || jsIncludesAux needle t

/-- JavaScript `hay.includes(needle)` on strings. -/
def jsIncludes (hay needle : String) : Bool :=
  jsIncludesAux needle.toList hay.toList

/-- One condition of `checkConditions`: the answer must be present and truthy
(non-empty); `equals` is the strict string comparison (a string is never
strictly equal to an array), `contains` / `in` only test when the expected
value has the guarded type and otherwise fall through, and the unimplemented
`greaterThan` / `lessThan` cases fall through without failing. -/
def condHolds (answers : List (String × String)) (condition : ResolutionCondition) : Bool :=
  match assocGet answers condition.questionId with
  | none => false
  | some userAnswer =>
    if userAnswer = "" then false
    else
      match condition.operator, condition.expectedAnswer with
      | .equals, .str s => userAnswer == s
      | .equals, .list _ => false
      | .contains, .str s => jsIncludes userAnswer s
      | .contains, .list _ => true
      | .inOp, .list l => l.contains userAnswer
      | .inOp, .str _ => true
      | .greaterThan, _ => true
      | .lessThan, _ => true

/-- Checks whether all conditions of a resolution path are met: an empty
condition list always matches, and otherwise the source loop returns false
on the first failing condition, i.e. every condition must hold. -/
def checkConditions (conditions : List ResolutionCondition)
    (answers : List (String × String)) : Bool :=
  conditions.all (condHolds answers)

/-- Deterministically finds the first resolution path of the category whose
conditions are all met, falling back to the last declared path (`undefined`
for an empty list, which never occurs in the configuration). -/
def findMatchingResolution (category : IssueCategory)
    (answers : List (String × String)) : Option ResolutionPath :=
  let paths := RESOLUTION_PATHS category
  match paths.find? (fun path => checkConditions path.conditions answers) with
  | some path => some path
  | none => paths.getLast?

/-- Escalation priorities. -/
inductive Priority
  | low
  | medium
  | high
  | urgent
  deriving DecidableEq, Repr

/-- Escalation details of a resolution. -/
structure EscalationDetails where
  team : String
  priority : Priority
  estimatedResponseTime : String
  ticketNumber : String
  deriving DecidableEq, Repr

/-- The terminal resolution artifact. -/
structure Resolution where
  type : ResolutionType
  message : String
  steps : Option (List String) := none
  escalationDetails : Option EscalationDetails := none
  referenceNumber : Option String := none
  deriving DecidableEq, Repr

/-- Priority to responsible-team lookup. -/
def getTeamForPriority : Priority → String
  | .urgent => "Priority Support Team"
  | .high => "Specialist Team"
  | .medium => "Customer Support Team"
  | .low => "General Support Team"

/-- Builds an escalation resolution.  The impure ticket-number generator
(`TKT-` + date stamp + random suffix) is passed in as `ticketNumber`; the
reason argument of the source is unused there and omitted. -/
def createEscalationResolution (ticketNumber : String) (priority : Priority)
    (estimatedTime : String) : Resolution :=
  { type := if priority = .high || priority = .urgent
      then .ESCALATE_SPECIALIST else .ESCALATE_AGENT
    message := "I\x27ve created a support ticket for you. Our team will help resolve this issue."
    escalationDetails := some
      { team := getTeamForPriority priority
        priority := priority
        estimatedResponseTime := estimatedTime
        ticketNumber := ticketNumber }
    referenceNumber := some ticketNumber }

/-- Builds a self-service resolution. -/
def createSelfServiceResolution (steps : List String) : Resolution :=
  { type := .SELF_SERVICE
    message := "You can resolve this issue yourself by following these steps:"
    steps := some steps }

/-- Builds an automated-action resolution; the impure reference-number
generator is passed in as `referenceNumber` (the estimated-time argument is
unused in the source). -/
def createAutomatedActionResolution (steps : List String)
    (referenceNumber : String) : Resolution :=
  { type := .AUTOMATED_ACTION
    message := "I\x27ll take care of this for you. Here\x27s what will happen:"
    steps := some steps
    referenceNumber := some referenceNumber }

/-- Builds an information resolution (the collected answers are accepted but
unused in the source). -/
def createInformationResolution (info : List String) : Resolution :=
  { type := .INFORMATION_PROVIDED
    message := "Here\x27s the information you need:"
    steps := some info }

/-- Finds the matched path and builds the user-facing resolution from its
kind.  `ticketNumber` and `referenceNumber` stand for the source's impure
number generators. -/
def findResolution (ticketNumber referenceNumber : String)
    (category : IssueCategory) (answers : List (String × String)) : Resolution :=
  match findMatchingResolution category answers with
  | none => createEscalationResolution ticketNumber .medium "24-48 hours"
  | some path =>
    match path.type with
    | .SELF_SERVICE => createSelfServiceResolution path.steps
    | .AUTOMATED_ACTION =>
        createAutomatedActionResolution path.steps referenceNumber
    | .INFORMATION_PROVIDED => createInformationResolution path.steps
    | .ESCALATE_AGENT =>
        createEscalationResolution ticketNumber .medium (path.estimatedTime.getD "24 hours")
    | .ESCALATE_SPECIALIST =>
        createEscalationResolution ticketNumber .high (path.estimatedTime.getD "48 hours")

/-- Maximum length for text input, from the validation configuration. -/
def VALIDATION_CONFIG_MAX_TEXT_LENGTH : Nat := 1000

/-- The full-match semantics of the order-id regex literal
`^ORD-[0-9]{5}$`: the prefix `ORD-` followed by exactly five ASCII digits. -/
def matchesOrderIdPattern (s : String) : Bool :=
  s.length = 9 && s.take 4 == "ORD-" && (s.drop 4).data.all Char.isDigit

/-- The source compiles a pattern rule's string value with `new RegExp` and
tests the answer against it.  The question-tree configuration contains
exactly two regex literals; the order-id pattern (the only one a claim
exercises) is compiled here exactly, and any other pattern is conservatively
modelled as matching. -/
def regexTest (pattern : String) (s : String) : Bool :=
  if pattern = "^ORD-[0-9]{5}$" then matchesOrderIdPattern s else true

/-- Result of a validation: a success flag and an optional error message. -/
structure VResult where
  valid : Bool
  error : Option String := none
  deriving DecidableEq, Repr

/-- Validates an answer against a single rule.  A rule whose `value` field
does not have the type its tag guards for falls through as valid, exactly
like the source's `typeof` guards; `custom` has no implementation and is
always valid. -/
def validateRule (rule : ValidationRule) (answer : String) : VResult :=
  match rule.type with
  | .required =>
    if (jsTrim answer).length = 0 then { valid := false, error := some rule.errorMessage }
    else { valid := true }
  | .pattern =>
    match rule.value with
    | some (.str v) =>
      if regexTest v answer then { valid := true }
      else { valid := false, error := some rule.errorMessage }
    | some (.num _) => { valid := true }
    | none => { valid := true }
  | .minLength =>
    match rule.value with
    | some (.num n) =>
      if answer.length < n then { valid := false, error := some rule.errorMessage }
      else { valid := true }
    | some (.str _) => { valid := true }
    | none => { valid := true }
  | .maxLength =>
    match rule.value with
    | some (.num n) =>
      if n < answer.length then { valid := false, error := some rule.errorMessage }
      else { valid := true }
    | some (.str _) => { valid := true }
    | none => { valid := true }
  | .custom => { valid := true }

/-- Applies the question's rules in declared order, returning the first
failure. -/
def validateRules (rules : List ValidationRule) (answer : String) : VResult :=
  match rules with
  | [] => { valid := true }
  | rule :: rest =>
    let result := validateRule rule answer
    if result.valid then validateRules rest answer else result

/-- Validates a user's answer: empty or whitespace-only input is rejected
first (the source's `!answer || answer.trim().length === 0`), then input
over the global maximum length, then the question's rules in declared
order. -/
def validateAnswer (question : Question) (answer : String) : VResult :=
  if (jsTrim answer).length = 0 then
    { valid := false, error := some "Answer cannot be empty" }
  else if VALIDATION_CONFIG_MAX_TEXT_LENGTH < answer.length then
    { valid := false
      error := some ("Answer is too long (maximum " ++
        toString VALIDATION_CONFIG_MAX_TEXT_LENGTH ++ " characters)") }
  else
    validateRules question.validationRules answer

/-- Parses and normalizes a raw answer by question type: yes/no answers are
collapsed case-insensitively to `"yes"` / `"no"`, a purely numeric answer to
a single-choice question is a 1-based index into the option list, order ids
are upper-cased, and everything else is trimmed only. -/
def parseUserAnswer (question : Question) (rawAnswer : String) : String :=
  let trimmed := jsTrim rawAnswer
  match question.type with
  | .YES_NO =>
    let lower := jsToLower trimmed
    if lower = "yes" || lower = "y" || lower = "true" then "yes"
    else if lower = "no" || lower = "n" || lower = "false" then "no"
    else trimmed
  | .SINGLE_CHOICE =>
    if trimmed.length ≠ 0 && trimmed.data.all Char.isDigit then
      let n := digitsToNat trimmed
      if 1 ≤ n then
        match question.options.get? (n - 1) with
        | some opt => opt
        | none => trimmed
      else trimmed
    else trimmed
  | .ORDER_ID => jsToUpper trimmed
  | _ => trimmed

/-- Message roles. -/
inductive Role
  | user
  | assistant
  | system
  deriving DecidableEq, Repr

/-- A message in the conversation history.  The impure `uuidv4()` id is
passed in by callers; timestamps are milliseconds. -/
structure Message where
  id : String
  role : Role
  content : String
  timestamp : Nat
  deriving DecidableEq, Repr

/-- The per-conversation mutable state.  The `confidence` float of the
source is never read or written by any embedded operation and is omitted. -/
structure ConversationSession where
  sessionId : String
  mode : ConversationMode
  category : Option IssueCategory := none
  answers : List (String × String) := []
  currentQuestionId : Option String := none
  conversationHistory : List Message := []
  createdAt : Nat
  updatedAt : Nat
  resolved : Bool
  resolution : Option Resolution := none
  deriving DecidableEq, Repr

/-- Session timeout in milliseconds (30 minutes). -/
def SESSION_CONFIG_TIMEOUT_MS : Nat := 30 * 60 * 1000

/-- Maximum number of active sessions. -/
def SESSION_CONFIG_MAX_ACTIVE_SESSIONS : Nat := 1000

/-- The in-memory session store: a JavaScript `Map` keyed by session id,
modelled as an insertion-ordered association list.  `Map.set` on an
existing key overwrites in place (iteration order is unchanged); on a new
key it appends; `Map.delete` removes the entry; `Map.keys()[0]` is the
head key. -/
abbrev Store : Type := List (String × ConversationSession)

/-- JavaScript `Map.set`: replace in place when the key exists, append
otherwise. -/
def mapSet (m : Store) (k : String) (v : ConversationSession) : Store :=
  if m.any (fun p => p.1 = k) then
    m.map (fun p => if p.1 = k then (k, v) else p)
  else
    m ++ [(k, v)]

/-- JavaScript `Map.delete`. -/
def mapDelete (m : Store) (k : String) : Store :=
  m.filter (fun p => ¬ p.1 = k)

/-- Creates a new conversation session.  `sessionId` and `messageId` stand
for the impure `uuidv4()` calls and `now` for `new Date()`.  When the store
is at the capacity ceiling the first key in `Map` iteration order — the
oldest-inserted session — is deleted before the new session is admitted. -/
def createSession (sessionId messageId : String) (now : Nat)
    (mode : ConversationMode) (initialMessage : Option String)
    (sessions : Store) : ConversationSession × Store :=
  let session : ConversationSession :=
    { sessionId := sessionId
      mode := mode
      answers := []
      conversationHistory :=
        match initialMessage with
        | some m => [{ id := messageId, role := .user, content := m, timestamp := now }]
        | none => []
      createdAt := now
      updatedAt := now
      resolved := false }
  let sessions1 :=
    if SESSION_CONFIG_MAX_ACTIVE_SESSIONS ≤ sessions.length then
      match sessions.head? with
      | some oldest => mapDelete sessions oldest.1
      | none => sessions
    else sessions
  (session, mapSet sessions1 sessionId session)

/-- Retrieves a session by id with the lazy expiry check: absent ids report
`none`; a session whose elapsed time since `updatedAt` exceeds the timeout
is deleted from the store and reported `none`; otherwise the stored session
is returned and the store is untouched. -/
def getSession (now : Nat) (sessionId : String) (sessions : Store) :
    Option ConversationSession × Store :=
  match assocGet sessions sessionId with
  | none => (none, sessions)
  | some session =>
    if SESSION_CONFIG_TIMEOUT_MS < now - session.updatedAt then
      (none, mapDelete sessions sessionId)
    else
      (some session, sessions)

/-- The partial update of `updateSession`: every field of the session may be
supplied, and absent fields keep their current value (the object spread
`{...session, ...updates}`). -/
structure SessionPatch where
  sessionId : Option String := none
  mode : Option ConversationMode := none
  category : Option (Option IssueCategory) := none
  answers : Option (List (String × String)) := none
  currentQuestionId : Option (Option String) := none
  conversationHistory : Option (List Message) := none
  createdAt : Option Nat := none
  resolved : Option Bool := none
  resolution : Option (Option Resolution) := none

/-- Merges a patch into a session, then stamps `updatedAt` with `now`. -/
def applyPatch (session : ConversationSession) (updates : SessionPatch)
    (now : Nat) : ConversationSession :=
  { sessionId := updates.sessionId.getD session.sessionId
    mode := updates.mode.getD session.mode
    category := updates.category.getD session.category
    answers := updates.answers.getD session.answers
    currentQuestionId := updates.currentQuestionId.getD session.currentQuestionId
    conversationHistory := updates.conversationHistory.getD session.conversationHistory
    createdAt := updates.createdAt.getD session.createdAt
    updatedAt := now
    resolved := updates.resolved.getD session.resolved
    resolution := updates.resolution.getD session.resolution }

/-- Updates an existing session with new data, refreshing `updatedAt`. -/
def updateSession (now : Nat) (sessionId : String) (updates : SessionPatch)
    (sessions : Store) : Option ConversationSession × Store :=
  match getSession now sessionId sessions with
  | (none, sessions1) => (none, sessions1)
  | (some session, sessions1) =>
    let updatedSession := applyPatch session updates now
    (some updatedSession, mapSet sessions1 sessionId updatedSession)

/-- Records an answer on a session, refreshing `updatedAt`.  The JavaScript
`session.answers[questionId] = answer` overwrites an existing key in place
and appends a new one, like `mapSet`. -/
def setAnswer (answers : List (String × String)) (questionId answer : String) :
    List (String × String) :=
  if answers.any (fun p => p.1 = questionId) then
    answers.map (fun p => if p.1 = questionId then (questionId, answer) else p)
  else
    answers ++ [(questionId, answer)]

/-- Records a user's answer to a specific question. -/
def addAnswer (now : Nat) (sessionId questionId answer : String)
    (sessions : Store) : Option ConversationSession × Store :=
  match getSession now sessionId sessions with
  | (none, sessions1) => (none, sessions1)
  | (some session, sessions1) =>
    let session1 := { session with
      answers := setAnswer session.answers questionId answer
      updatedAt := now }
    (some session1, mapSet sessions1 sessionId session1)

/-- The successor question ids of a question: the targets of its
`nextQuestionMap` edges (empty for an unknown question id). -/
def succs (category : IssueCategory) (questionId : String) : List String :=
  match getQuestion category questionId with
  | none => []
  | some question => question.nextQuestionMap.map (fun e => e.2)

/-- Maximum of a list of naturals (0 for the empty list). -/
def maxList : List Nat → Nat
  | [] => 0
  | n :: t => max n (maxList t)

/-- The length (in questions) of the longest chain of `nextQuestionMap`
edges starting at a question — for the root, the longest root-to-leaf path
of the declared tree — computed with explicit fuel; `none` means the fuel
did not suffice (which, by computation, never happens at fuel 10 on the
declared trees). -/
def depthFrom (category : IssueCategory) : Nat → String → Option Nat
  | 0, _ => none
  | fuel + 1, questionId =>
    if ((succs category questionId).map (depthFrom category fuel)).all Option.isSome then
      some (1 + maxList
        (((succs category questionId).map (depthFrom category fuel)).filterMap id))
    else none

/-- The sequence of questions visited from `questionId` when the listed raw
answers are given one by one: at each step the engine follows
`getNextQuestionId` and stops at a leaf or unmapped answer (or when the
answers run out). -/
def visit (category : IssueCategory) : String → List String → List String
  | questionId, [] => [questionId]
  | questionId, answer :: rest =>
    match getNextQuestionId category questionId answer with
    | none => [questionId]
    | some nextId => questionId :: visit category nextId rest

/-- The depth of a question at fuel 10, defaulted to 0. -/
def rank (category : IssueCategory) (questionId : String) : Nat :=
  (depthFrom category 10 questionId).getD 0

/-- Checked by computation over the declared configuration: every
`nextQuestionMap` edge strictly decreases `rank`, i.e. the declared trees
are acyclic. -/
def edgesDecreasing (category : IssueCategory) : Bool :=
  (QUESTION_TREES category).questions.all (fun p =>
    (p.2.nextQuestionMap.map (fun e => e.2)).all
      (fun n => rank category n < rank category p.1))

/-- A fresh yes/no question with no extra validation rules, for the C8
witness. -/
def plainYesNoQuestion : Question :=
  { id := "w_yes_no", text := "A yes or no question", type := .YES_NO }

/-- A session stored with last activity at time 0, for the session-store
witnesses. -/
def idleSession : ConversationSession :=
  { sessionId := "a", mode := .SYSTEM_INITIATED, createdAt := 0, updatedAt := 0,
    resolved := false }

/-- A one-session store holding `idleSession`. -/
def idleStore : Store := [("a", idleSession)]

/-- A deterministic stand-in for the sessions created by the store: session
`i` was inserted `i`-th; session 0 has been refreshed (last activity 1500,
through an update that leaves it at the head of the iteration order) while
every later-inserted session `i ≥ 1` was last active at time `i`. -/
def demoSessionBase (i : Nat) : ConversationSession :=
  { sessionId := "s" ++ toString i
    mode := .SYSTEM_INITIATED
    createdAt := i
    updatedAt := if i = 0 then 1500 else i
    resolved := false }

/-- A store at the capacity ceiling of 1000 sessions whose head ("s0") is
the most recently active session and whose second entry ("s1") is the least
recently active one. -/
def demoStore : Store :=
  (List.range 1000).map (fun i => ("s" ++ toString i, demoSessionBase i))

/-! Helper lemmas. -/

/-- A successful `find?` splits the list at the first hit. -/
theorem find?_eq_some_split {α : Type} (p : α → Bool) :
    ∀ (l : List α) (a : α), l.find? p = some a →
      ∃ pre post, l = pre ++ a :: post ∧ p a = true ∧ ∀ x ∈ pre, p x = false := by
  intro l
  induction l with
  | nil => intro a h; simp [List.find?] at h
  | cons b t ih =>
    intro a h
    by_cases hb : p b = true
    · rw [List.find?_cons_of_pos _ hb] at h
      obtain rfl : b = a := by injection h
      exact ⟨[], t, rfl, hb, by simp⟩
    · have hb' : p b = false := by simpa using hb
      rw [List.find?_cons_of_neg _ (by simp [hb'])] at h
      obtain ⟨pre, post, rfl, hpa, hpre⟩ := ih a h
      refine ⟨b :: pre, post, rfl, hpa, ?_⟩
      intro x hx
      rcases List.mem_cons.mp hx with rfl | hx
      · exact hb'
      · exact hpre x hx

/-- Every category's declared resolution-path list is non-empty. -/
theorem RESOLUTION_PATHS_ne_nil (category : IssueCategory) :
    RESOLUTION_PATHS category ≠ [] := by
  cases category <;> simp [RESOLUTION_PATHS, ORDER_STATUS_RESOLUTIONS,
    DELIVERY_PROBLEM_RESOLUTIONS, PAYMENT_ISSUE_RESOLUTIONS,
    REFUND_REQUEST_RESOLUTIONS, PRODUCT_DEFECT_RESOLUTIONS,
    ACCOUNT_ACCESS_RESOLUTIONS, BILLING_INQUIRY_RESOLUTIONS,
    CANCELLATION_RESOLUTIONS, OTHER_RESOLUTIONS]

/-- C1: for every issue category and every answers map — the empty map
included — `findMatchingResolution` returns a resolution path: the first
path in the category's declared list whose conditions are all satisfied,
and, when no path's conditions are satisfied, the last declared path of the
category's list. -/
theorem findMatchingResolution_first_or_fallback (category : IssueCategory)
    (answers : List (String × String)) :
    ∃ path, findMatchingResolution category answers = some path ∧
      ((∃ pre post, RESOLUTION_PATHS category = pre ++ path :: post ∧
          checkConditions path.conditions answers = true ∧
          ∀ q ∈ pre, checkConditions q.conditions answers = false) ∨
       ((∀ q ∈ RESOLUTION_PATHS category, checkConditions q.conditions answers = false) ∧
          (RESOLUTION_PATHS category).getLast? = some path)) := by
  cases hf : (RESOLUTION_PATHS category).find?
      (fun path => checkConditions path.conditions answers) with
  | some p =>
    refine ⟨p, ?_, Or.inl ?_⟩
    · simp [findMatchingResolution, hf]
    · exact find?_eq_some_split _ _ _ hf
  | none =>
    have hne := RESOLUTION_PATHS_ne_nil category
    obtain ⟨p, hp⟩ := Option.isSome_iff_exists.mp (List.getLast?_isSome.mpr hne)
    refine ⟨p, ?_, Or.inr ⟨?_, hp⟩⟩
    · simp [findMatchingResolution, hf, hp]
    · intro q hq
      have := List.find?_eq_none.mp hf q hq
      simpa using this

/-- Witness: C1 instantiated at the OTHER category with the empty answers
map. -/
theorem findMatchingResolution_first_or_fallback_w :
    ∃ path, findMatchingResolution .OTHER [] = some path ∧
      ((∃ pre post, RESOLUTION_PATHS .OTHER = pre ++ path :: post ∧
          checkConditions path.conditions [] = true ∧
          ∀ q ∈ pre, checkConditions q.conditions [] = false) ∨
       ((∀ q ∈ RESOLUTION_PATHS .OTHER, checkConditions q.conditions [] = false) ∧
          (RESOLUTION_PATHS .OTHER).getLast? = some path)) :=
  findMatchingResolution_first_or_fallback .OTHER []

/-- C3 counterexample: a greater-than condition is evaluated as satisfied —
not as failing — whenever the recorded answer exists and is non-empty, so a
condition list consisting of such a condition is a full match. -/
theorem checkConditions_greaterThan_satisfied_cex :
    checkConditions
      [{ questionId := "q1", expectedAnswer := .str "5", operator := .greaterThan }]
      [("q1", "3")] = true := by decide

/-- C3 amended: a condition whose operator is greater-than or less-than is
treated as satisfied exactly when the recorded answer for its question id
exists and is non-empty (the unimplemented operator cases fall through
without failing; only the truthiness guard on the answer can reject). -/
theorem checkConditions_unimplemented_op (questionId : String)
    (expected : ExpectedAnswer) (op : CondOp) (answers : List (String × String))
    (hop : op = .greaterThan ∨ op = .lessThan) :
    (checkConditions [{ questionId := questionId, expectedAnswer := expected, operator := op }]
        answers = true ↔
      ∃ a, assocGet answers questionId = some a ∧ a ≠ "") := by
  cases hget : assocGet answers questionId with
  | none => simp [checkConditions, condHolds, hget]
  | some a =>
    by_cases ha : a = ""
    · subst ha
      simp [checkConditions, condHolds, hget]
    · rcases hop with rfl | rfl <;>
        (cases expected <;> simp [checkConditions, condHolds, hget, ha])

/-- Witness: C3 amended instantiated at a concrete less-than condition with
a present, non-empty answer. -/
theorem checkConditions_unimplemented_op_w :
    (checkConditions
        [{ questionId := "q", expectedAnswer := .str "10", operator := .lessThan }]
        [("q", "2")] = true ↔
      ∃ a, assocGet [("q", "2")] "q" = some a ∧ a ≠ "") :=
  checkConditions_unimplemented_op "q" (.str "10") .lessThan [("q", "2")] (Or.inr rfl)

/-- C4 counterexample: the last declared path of the ORDER_STATUS category
has a non-empty condition list, so not every category's path list ends in a
zero-condition fallback. -/
theorem last_path_not_unconditional_cex :
    ((RESOLUTION_PATHS .ORDER_STATUS).getLast?).map
      (fun path => path.conditions.isEmpty) = some false := by decide

/-- C4 amended: every category's declared resolution-path list is non-empty,
so the fallback (its last declared path) always exists, but that last path
has an empty condition list — is a universal match — exactly for the OTHER
category; for every other category the last path carries conditions. -/
theorem last_path_empty_iff_OTHER (category : IssueCategory) :
    ∃ path, (RESOLUTION_PATHS category).getLast? = some path ∧
      (path.conditions = [] ↔ category = .OTHER) := by
  cases category <;> exact ⟨_, rfl, by decide⟩

/-- C9: for category DELIVERY_PROBLEM with the recorded answers
delivery_1 = "Package is delayed" and delivery_2 = "More than 5 days",
matching selects the `delivery_delayed_major` path, and the resolution built
from it has kind ESCALATE_AGENT (for any generated ticket and reference
numbers). -/
theorem scenarioA_delivery_delayed_major (ticketNumber referenceNumber : String) :
    (findMatchingResolution .DELIVERY_PROBLEM
        [("delivery_1", "Package is delayed"), ("delivery_2", "More than 5 days")]).map
      (fun path => path.id) = some "delivery_delayed_major" ∧
    (findResolution ticketNumber referenceNumber .DELIVERY_PROBLEM
        [("delivery_1", "Package is delayed"), ("delivery_2", "More than 5 days")]).type
      = .ESCALATE_AGENT := by
  exact ⟨by decide, rfl⟩

/-- Witness: C9 instantiated at concrete ticket and reference numbers. -/
theorem scenarioA_delivery_delayed_major_w :
    (findMatchingResolution .DELIVERY_PROBLEM
        [("delivery_1", "Package is delayed"), ("delivery_2", "More than 5 days")]).map
      (fun path => path.id) = some "delivery_delayed_major" ∧
    (findResolution "TKT-20260101-0001" "REF-00000001" .DELIVERY_PROBLEM
        [("delivery_1", "Package is delayed"), ("delivery_2", "More than 5 days")]).type
      = .ESCALATE_AGENT :=
  scenarioA_delivery_delayed_major "TKT-20260101-0001" "REF-00000001"

/-- C8: normalization of a yes/no answer collapses any case variant of
yes / y / true to exactly `"yes"` and of no / n / false to `"no"`, and passes
any other input through trimmed but otherwise unchanged; and the round trip
on the configured yes/no question `account_2` (which has no extra validation
rules) normalizes the raw answer `"YES"` to `"yes"`, which then passes
validation. -/
theorem parseUserAnswer_yes_no (question : Question) (s : String)
    (h : question.type = .YES_NO) :
    ((jsToLower (jsTrim s) = "yes" ∨ jsToLower (jsTrim s) = "y" ∨
        jsToLower (jsTrim s) = "true") → parseUserAnswer question s = "yes") ∧
    ((jsToLower (jsTrim s) = "no" ∨ jsToLower (jsTrim s) = "n" ∨
        jsToLower (jsTrim s) = "false") → parseUserAnswer question s = "no") ∧
    (jsToLower (jsTrim s) ∉ (["yes", "y", "true", "no", "n", "false"] : List String) →
        parseUserAnswer question s = jsTrim s) ∧
    ((getQuestion .ACCOUNT_ACCESS "account_2").map
        (fun q2 => (parseUserAnswer q2 "YES",
          (validateAnswer q2 (parseUserAnswer q2 "YES")).valid)) = some ("yes", true)) := by
  refine ⟨?_, ?_, ?_, by decide⟩
  · intro hc
    rcases hc with h1 | h1 | h1 <;> simp [parseUserAnswer, h, h1]
  · intro hc
    rcases hc with h1 | h1 | h1 <;> simp [parseUserAnswer, h, h1]
  · intro hmem
    have h1 : jsToLower (jsTrim s) ≠ "yes" := fun e => hmem (by simp [e])
    have h2 : jsToLower (jsTrim s) ≠ "y" := fun e => hmem (by simp [e])
    have h3 : jsToLower (jsTrim s) ≠ "true" := fun e => hmem (by simp [e])
    have h4 : jsToLower (jsTrim s) ≠ "no" := fun e => hmem (by simp [e])
    have h5 : jsToLower (jsTrim s) ≠ "n" := fun e => hmem (by simp [e])
    have h6 : jsToLower (jsTrim s) ≠ "false" := fun e => hmem (by simp [e])
    simp [parseUserAnswer, h, h1, h2, h3, h4, h5, h6]

/-- Witness: C8 instantiated at a concrete yes/no question and the raw
answer `" TRUE "`. -/
theorem parseUserAnswer_yes_no_w :
    ((jsToLower (jsTrim " TRUE ") = "yes" ∨ jsToLower (jsTrim " TRUE ") = "y" ∨
        jsToLower (jsTrim " TRUE ") = "true") →
        parseUserAnswer plainYesNoQuestion " TRUE " = "yes") ∧
    ((jsToLower (jsTrim " TRUE ") = "no" ∨ jsToLower (jsTrim " TRUE ") = "n" ∨
        jsToLower (jsTrim " TRUE ") = "false") →
        parseUserAnswer plainYesNoQuestion " TRUE " = "no") ∧
    (jsToLower (jsTrim " TRUE ") ∉ (["yes", "y", "true", "no", "n", "false"] : List String) →
        parseUserAnswer plainYesNoQuestion " TRUE " = jsTrim " TRUE ") ∧
    ((getQuestion .ACCOUNT_ACCESS "account_2").map
        (fun q2 => (parseUserAnswer q2 "YES",
          (validateAnswer q2 (parseUserAnswer q2 "YES")).valid)) = some ("yes", true)) :=
  parseUserAnswer_yes_no plainYesNoQuestion " TRUE " rfl

/-- Deleting a key removes every binding of that key. -/
theorem assocGet_mapDelete_self (m : Store) (k : String) :
    assocGet (mapDelete m k) k = none := by
  simp only [assocGet, mapDelete, Option.map_eq_none']
  apply List.find?_eq_none.mpr
  intro x hx
  have hxk := (List.mem_filter.mp hx).2
  simp at hxk ⊢
  exact hxk

/-- C6: `getSession` returns a stored session only when the elapsed time
since its last-activity stamp is within the 30-minute time-to-live; when the
time-to-live is exceeded it deletes the session from the store and reports
absent — a session never mutated within the time-to-live is gone on the next
get, even though it was never explicitly deleted. -/
theorem getSession_ttl (now : Nat) (sessionId : String) (st : Store)
    (s : ConversationSession) (h : assocGet st sessionId = some s) :
    (now - s.updatedAt ≤ SESSION_CONFIG_TIMEOUT_MS →
        getSession now sessionId st = (some s, st)) ∧
    (SESSION_CONFIG_TIMEOUT_MS < now - s.updatedAt →
        getSession now sessionId st = (none, mapDelete st sessionId) ∧
        assocGet (getSession now sessionId st).2 sessionId = none) := by
  constructor
  · intro hle
    simp [getSession, h]
    omega
  · intro hlt
    have hg : getSession now sessionId st = (none, mapDelete st sessionId) := by
      simp [getSession, h]
      omega
    exact ⟨hg, by rw [hg]; exact assocGet_mapDelete_self st sessionId⟩

/-- Witness: C6 instantiated at the one-session store, probed one
millisecond after the time-to-live has elapsed. -/
theorem getSession_ttl_w :
    (1800001 - idleSession.updatedAt ≤ SESSION_CONFIG_TIMEOUT_MS →
        getSession 1800001 "a" idleStore = (some idleSession, idleStore)) ∧
    (SESSION_CONFIG_TIMEOUT_MS < 1800001 - idleSession.updatedAt →
        getSession 1800001 "a" idleStore = (none, mapDelete idleStore "a") ∧
        assocGet (getSession 1800001 "a" idleStore).2 "a" = none) :=
  getSession_ttl 1800001 "a" idleStore idleSession rfl

/-- C10: a successful `getSession` is read-only — the store it returns is
the input store and the session it returns is exactly the stored record, so
no field (`updatedAt` included) is refreshed; consequently repeated gets
never extend a session's lifetime: a later get past the time-to-live
measured from the stored `updatedAt` reports absent. -/
theorem getSession_readonly (now now2 : Nat) (sessionId : String) (st : Store)
    (s : ConversationSession) (h : (getSession now sessionId st).1 = some s) :
    getSession now sessionId st = (some s, st) ∧
    assocGet st sessionId = some s ∧
    (SESSION_CONFIG_TIMEOUT_MS < now2 - s.updatedAt →
        (getSession now2 sessionId st).1 = none) := by
  cases hget : assocGet st sessionId with
  | none => simp [getSession, hget] at h
  | some s' =>
    by_cases hexp : SESSION_CONFIG_TIMEOUT_MS < now - s'.updatedAt
    · simp [getSession, hget, hexp] at h
    · obtain rfl : s' = s := by simpa [getSession, hget, hexp] using h
      refine ⟨?_, rfl, ?_⟩
      · simp [getSession, hget, hexp]
      · intro hlt
        simp [getSession, hget, hlt]

/-- Witness: C10 instantiated at the one-session store, read at time 5 and
probed again past the time-to-live. -/
theorem getSession_readonly_w :
    getSession 5 "a" idleStore = (some idleSession, idleStore) ∧
    assocGet idleStore "a" = some idleSession ∧
    (SESSION_CONFIG_TIMEOUT_MS < 1800001 - idleSession.updatedAt →
        (getSession 1800001 "a" idleStore).1 = none) :=
  getSession_readonly 5 1800001 "a" idleStore idleSession rfl

/-- A failing rule reports exactly its configured error message. -/
theorem validateRule_error_of_fail (rule : ValidationRule) (answer : String)
    (h : (validateRule rule answer).valid = false) :
    validateRule rule answer = { valid := false, error := some rule.errorMessage } := by
  rcases rule with ⟨rt, rv, msg⟩
  cases rt <;> simp only [validateRule] at h ⊢
  · split
    · rfl
    · rename_i hc
      rw [if_neg hc] at h
      simp at h
  · rcases rv with _ | v
    · simp at h
    · cases v <;> simp only [validateRule] at h ⊢
      · split
        · rename_i hc
          rw [if_pos hc] at h
          simp at h
        · rfl
      · simp at h
  · rcases rv with _ | v
    · simp at h
    · cases v <;> simp only [validateRule] at h ⊢
      · simp at h
      · split
        · rfl
        · rename_i hc
          rw [if_neg hc] at h
          simp at h
  · rcases rv with _ | v
    · simp at h
    · cases v <;> simp only [validateRule] at h ⊢
      · simp at h
      · split
        · rfl
        · rename_i hc
          rw [if_neg hc] at h
          simp at h
  · simp at h

/-- The rule loop returns the first failing rule's result and succeeds when
no rule fails. -/
theorem validateRules_eq_find (rules : List ValidationRule) (answer : String) :
    validateRules rules answer =
      (match rules.find? (fun r => !(validateRule r answer).valid) with
       | some r => { valid := false, error := some r.errorMessage }
       | none => { valid := true }) := by
  induction rules with
  | nil => rfl
  | cons r rest ih =>
    by_cases hv : (validateRule r answer).valid = true
    · rw [validateRules, if_pos hv, ih,
        List.find?_cons_of_neg _ (by simp [hv])]
    · have hv' : (validateRule r answer).valid = false := by simpa using hv
      rw [validateRules, if_neg (by simp [hv']),
        List.find?_cons_of_pos _ (by simp [hv']),
        validateRule_error_of_fail r answer hv']

/-- C7: validation rejects empty or whitespace-only input first, then input
longer than the global maximum length of 1000 characters, and otherwise
applies the question's rules in declared order, returning the first failing
rule's configured error message; it is valid exactly when the input passes
the two global checks and every rule; and the answer `"not a number"` to the
configured question with pattern rule `^ORD-[0-9]{5}$` is invalid with that
rule's configured error message. -/
theorem validateAnswer_spec (question : Question) (answer : String) :
    VALIDATION_CONFIG_MAX_TEXT_LENGTH = 1000 ∧
    ((jsTrim answer).length = 0 →
      validateAnswer question answer
        = { valid := false, error := some "Answer cannot be empty" }) ∧
    ((jsTrim answer).length ≠ 0 → VALIDATION_CONFIG_MAX_TEXT_LENGTH < answer.length →
      validateAnswer question answer
        = { valid := false
            error := some "Answer is too long (maximum 1000 characters)" }) ∧
    ((jsTrim answer).length ≠ 0 → answer.length ≤ VALIDATION_CONFIG_MAX_TEXT_LENGTH →
      validateAnswer question answer
        = (match question.validationRules.find? (fun r => !(validateRule r answer).valid) with
           | some r => { valid := false, error := some r.errorMessage }
           | none => { valid := true })) ∧
    ((validateAnswer question answer).valid = true ↔
      ((jsTrim answer).length ≠ 0 ∧ answer.length ≤ VALIDATION_CONFIG_MAX_TEXT_LENGTH ∧
        ∀ r ∈ question.validationRules, (validateRule r answer).valid = true)) ∧
    ((getQuestion .ORDER_STATUS "order_status_2").map
        (fun q => validateAnswer q "not a number")
      = some { valid := false, error := some "Order number must be in format ORD-XXXXX" }) := by
  refine ⟨rfl, ?_, ?_, ?_, ?_, by decide⟩
  · intro h0
    simp [validateAnswer, h0]
  · intro h0 h1
    rw [validateAnswer, if_neg (by omega), if_pos h1]
    rfl
  · intro h0 h1
    rw [validateAnswer, if_neg (by omega), if_neg (by omega),
      validateRules_eq_find]
  · by_cases h0 : (jsTrim answer).length = 0
    · simp [validateAnswer, h0]
    · by_cases h1 : VALIDATION_CONFIG_MAX_TEXT_LENGTH < answer.length
      · rw [validateAnswer, if_neg (by omega), if_pos h1]
        simp
        omega
      · rw [validateAnswer, if_neg (by omega), if_neg (by omega),
          validateRules_eq_find]
        cases hf : question.validationRules.find? (fun r => !(validateRule r answer).valid) with
        | some r =>
          have hmem := List.mem_of_find?_eq_some hf
          have hfail := List.find?_some hf
          simp only [Bool.not_eq_true'] at hfail
          simp only [Bool.false_eq_true, false_iff]
          intro hc
          exact absurd (hc.2.2 r hmem) (by simp [hfail])
        | none =>
          have hall := List.find?_eq_none.mp hf
          simp only [true_iff]
          refine ⟨h0, by omega, ?_⟩
          intro r hr
          have := hall r hr
          simpa using this

/-- Witness: C7 instantiated at a concrete question and the answer
`"hi"`. -/
theorem validateAnswer_spec_w :
    VALIDATION_CONFIG_MAX_TEXT_LENGTH = 1000 ∧
    ((jsTrim "hi").length = 0 →
      validateAnswer plainYesNoQuestion "hi"
        = { valid := false, error := some "Answer cannot be empty" }) ∧
    ((jsTrim "hi").length ≠ 0 → VALIDATION_CONFIG_MAX_TEXT_LENGTH < "hi".length →
      validateAnswer plainYesNoQuestion "hi"
        = { valid := false
            error := some "Answer is too long (maximum 1000 characters)" }) ∧
    ((jsTrim "hi").length ≠ 0 → "hi".length ≤ VALIDATION_CONFIG_MAX_TEXT_LENGTH →
      validateAnswer plainYesNoQuestion "hi"
        = (match plainYesNoQuestion.validationRules.find?
              (fun r => !(validateRule r "hi").valid) with
           | some r => { valid := false, error := some r.errorMessage }
           | none => { valid := true })) ∧
    ((validateAnswer plainYesNoQuestion "hi").valid = true ↔
      ((jsTrim "hi").length ≠ 0 ∧ "hi".length ≤ VALIDATION_CONFIG_MAX_TEXT_LENGTH ∧
        ∀ r ∈ plainYesNoQuestion.validationRules,
          (validateRule r "hi").valid = true)) ∧
    ((getQuestion .ORDER_STATUS "order_status_2").map
        (fun q => validateAnswer q "not a number")
      = some { valid := false, error := some "Order number must be in format ORD-XXXXX" }) :=
  validateAnswer_spec plainYesNoQuestion "hi"

/-- Reading one association-list cons cell. -/
theorem assocGet_cons (x : String × ConversationSession) (t : Store) (k : String) :
    assocGet (x :: t) k = if x.1 = k then some x.2 else assocGet t k := by
  by_cases hx : x.1 = k
  · simp [assocGet, hx, List.find?_cons_of_pos]
  · rw [if_neg hx]
    simp only [assocGet]
    rw [List.find?_cons_of_neg _ (by simp [hx])]

/-- Overwriting key `k` in place does not affect reads of other keys. -/
theorem assocGet_replaceMap (m : Store) (k : String) (v : ConversationSession)
    (q : String) (hne : q ≠ k) :
    assocGet (m.map (fun p => if p.1 = k then (k, v) else p)) q = assocGet m q := by
  induction m with
  | nil => rfl
  | cons x t ih =>
    by_cases hx : x.1 = k
    · have hq : x.1 ≠ q := by rw [hx]; exact fun e => hne e.symm
      rw [List.map_cons, if_pos hx, assocGet_cons, if_neg (fun e => hne e.symm),
        assocGet_cons, if_neg hq, ih]
    · rw [List.map_cons, if_neg hx, assocGet_cons, assocGet_cons]
      by_cases hxq : x.1 = q
      · rw [if_pos hxq, if_pos hxq]
      · rw [if_neg hxq, if_neg hxq, ih]

/-- Appending a binding for key `k` does not affect reads of other keys. -/
theorem assocGet_append_single (m : Store) (k : String) (v : ConversationSession)
    (q : String) (hne : q ≠ k) :
    assocGet (m ++ [(k, v)]) q = assocGet m q := by
  induction m with
  | nil =>
    simp only [List.nil_append]
    rw [assocGet_cons, if_neg (fun e => hne e.symm)]
  | cons x t ih =>
    rw [List.cons_append, assocGet_cons, assocGet_cons]
    by_cases hxq : x.1 = q
    · rw [if_pos hxq, if_pos hxq]
    · rw [if_neg hxq, if_neg hxq, ih]

/-- `mapSet` makes the written binding readable. -/
theorem assocGet_mapSet_self (m : Store) (k : String) (v : ConversationSession) :
    assocGet (mapSet m k v) k = some v := by
  unfold mapSet
  split
  · rename_i hany
    induction m with
    | nil => simp at hany
    | cons x t ih =>
      by_cases hx : x.1 = k
      · rw [List.map_cons, if_pos hx, assocGet_cons, if_pos rfl]
      · have ht : t.any (fun p => p.1 = k) = true := by
          simp only [List.any_cons] at hany
          simpa [hx] using hany
        rw [List.map_cons, if_neg hx, assocGet_cons, if_neg hx]
        exact ih ht
  · rename_i hany
    induction m with
    | nil =>
      simp only [List.nil_append]
      rw [assocGet_cons, if_pos rfl]
    | cons x t ih =>
      have hx : x.1 ≠ k := by
        intro e
        exact hany (by simp [List.any_cons, e])
      have ht : ¬ t.any (fun p => p.1 = k) = true := by
        intro e
        exact hany (by simp [List.any_cons, e])
      rw [List.cons_append, assocGet_cons, if_neg hx]
      exact ih ht

/-- `mapSet` leaves every other key's binding unchanged. -/
theorem assocGet_mapSet_ne (m : Store) (k : String) (v : ConversationSession)
    (q : String) (hne : q ≠ k) :
    assocGet (mapSet m k v) q = assocGet m q := by
  unfold mapSet
  split
  · exact assocGet_replaceMap m k v q hne
  · exact assocGet_append_single m k v q hne

/-- `mapSet` never reorders the store: overwriting an existing key keeps
the key sequence, and a new key is appended at the end — so refreshing a
session's activity (`updateSession` / `addAnswer`) keeps it at its original
position in `Map` iteration order. -/
theorem mapSet_keys (m : Store) (k : String) (v : ConversationSession) :
    (mapSet m k v).map Prod.fst =
      (if m.any (fun p => p.1 = k) then m.map Prod.fst
       else m.map Prod.fst ++ [k]) := by
  unfold mapSet
  split
  · rw [List.map_map]
    apply List.map_congr_left
    intro p _
    by_cases hp : p.1 = k
    · simp [hp]
    · simp [hp]
  · simp

/-- C5 amended: when `createSession` is called while the store already holds
the maximum number of sessions (1000), the store's first key in `Map`
iteration order — the oldest-inserted session, regardless of its
last-activity timestamp — is deleted before the new session is admitted;
immediately afterwards the new session is present in the store and the
evicted key (when distinct from the new id) is absent. -/
theorem createSession_capacity_evicts_head (sessionId messageId : String)
    (now : Nat) (mode : ConversationMode) (initialMessage : Option String)
    (st : Store) (k0 : String) (s0 : ConversationSession)
    (hcap : SESSION_CONFIG_MAX_ACTIVE_SESSIONS ≤ st.length)
    (hhead : st.head? = some (k0, s0)) :
    (createSession sessionId messageId now mode initialMessage st).2
      = mapSet (mapDelete st k0) sessionId
          (createSession sessionId messageId now mode initialMessage st).1 ∧
    assocGet (createSession sessionId messageId now mode initialMessage st).2 sessionId
      = some (createSession sessionId messageId now mode initialMessage st).1 ∧
    (k0 ≠ sessionId →
      assocGet (createSession sessionId messageId now mode initialMessage st).2 k0
        = none) := by
  have h2 : (createSession sessionId messageId now mode initialMessage st).2
      = mapSet (mapDelete st k0) sessionId
          (createSession sessionId messageId now mode initialMessage st).1 := by
    simp [createSession, hcap, hhead]
  refine ⟨h2, ?_, ?_⟩
  · rw [h2]
    exact assocGet_mapSet_self _ _ _
  · intro hne
    rw [h2, assocGet_mapSet_ne _ _ _ _ hne, assocGet_mapDelete_self]

/-- A read that hits implies the key occurs in the store. -/
theorem any_of_assocGet_some (m : Store) (k : String) (s : ConversationSession)
    (h : assocGet m k = some s) : m.any (fun p => p.1 = k) = true := by
  simp only [assocGet, Option.map_eq_some'] at h
  obtain ⟨pr, hfind, _⟩ := h
  have hmem := List.mem_of_find?_eq_some hfind
  have hp := List.find?_some hfind
  exact List.any_eq_true.mpr ⟨pr, hmem, hp⟩

/-- Refreshing a live session through `updateSession` does not move it in
`Map` iteration order: the key sequence of the store is unchanged.  This is
how a store whose insertion order disagrees with its last-activity order
arises. -/
theorem updateSession_keeps_key_order (now : Nat) (sessionId : String)
    (updates : SessionPatch) (st : Store) (s : ConversationSession)
    (h : getSession now sessionId st = (some s, st)) :
    ((updateSession now sessionId updates st).2).map Prod.fst = st.map Prod.fst := by
  have hget : assocGet st sessionId = some s := by
    cases hg : assocGet st sessionId with
    | none => simp [getSession, hg] at h
    | some s' =>
      by_cases hexp : SESSION_CONFIG_TIMEOUT_MS < now - s'.updatedAt
      · simp [getSession, hg, hexp] at h
      · have heq : s' = s := by simpa [getSession, hg, hexp] using h
        exact congrArg some heq
  have hany := any_of_assocGet_some st sessionId s hget
  simp only [updateSession, h]
  rw [mapSet_keys, if_pos hany]

set_option maxRecDepth 1000000

/-- C5 counterexample: with the store at its 1000-session ceiling, session
"s0" is strictly the most recently active (updatedAt 1500) and "s1" strictly
the least recently active (updatedAt 1), yet `createSession` evicts "s0" —
the first-inserted key — while "s1" survives, so the evicted session is not
the one whose last-activity timestamp is oldest.  (The new session is
admitted, as both the claim and the code state.) -/
theorem createSession_evicts_most_recent_cex :
    demoStore.length = 1000 ∧
    demoStore.all (fun p => p.1 == "s0" || decide (p.2.updatedAt < 1500)) = true ∧
    demoStore.all (fun p => p.1 == "s1" || decide (1 < p.2.updatedAt)) = true ∧
    (assocGet demoStore "s0").map (fun s => s.updatedAt) = some 1500 ∧
    (assocGet demoStore "s1").map (fun s => s.updatedAt) = some 1 ∧
    assocGet (createSession "fresh" "m" 1600 .SYSTEM_INITIATED none demoStore).2 "s0"
      = none ∧
    (assocGet (createSession "fresh" "m" 1600 .SYSTEM_INITIATED none demoStore).2 "s1").isSome
      = true ∧
    (assocGet (createSession "fresh" "m" 1600 .SYSTEM_INITIATED none demoStore).2 "fresh").isSome
      = true := by
  exact ⟨by decide, by decide, by decide, by decide, by decide, by decide,
    by decide, by decide⟩

/-- Witness: C5 amended instantiated at the concrete 1000-session store. -/
theorem createSession_capacity_evicts_head_w :
    (createSession "fresh" "m" 1600 .SYSTEM_INITIATED none demoStore).2
      = mapSet (mapDelete demoStore "s0") "fresh"
          (createSession "fresh" "m" 1600 .SYSTEM_INITIATED none demoStore).1 ∧
    assocGet (createSession "fresh" "m" 1600 .SYSTEM_INITIATED none demoStore).2 "fresh"
      = some (createSession "fresh" "m" 1600 .SYSTEM_INITIATED none demoStore).1 ∧
    ("s0" ≠ "fresh" →
      assocGet (createSession "fresh" "m" 1600 .SYSTEM_INITIATED none demoStore).2 "s0"
        = none) :=
  createSession_capacity_evicts_head "fresh" "m" 1600 .SYSTEM_INITIATED none
    demoStore "s0" (demoSessionBase 0)
    (by simp [demoStore, SESSION_CONFIG_MAX_ACTIVE_SESSIONS]) rfl

/-- A member of a list of naturals is at most its maximum. -/
theorem le_maxList (n : Nat) : ∀ (l : List Nat), n ∈ l → n ≤ maxList l := by
  intro l
  induction l with
  | nil => intro h; cases h
  | cons m t ih =>
    intro h
    rcases List.mem_cons.mp h with rfl | ht
    · simp only [maxList]
      exact Nat.le_max_left _ _
    · simp only [maxList]
      exact Nat.le_trans (ih ht) (Nat.le_max_right _ _)

/-- A defined depth is at least one. -/
theorem depthFrom_pos (category : IssueCategory) (fuel : Nat) (questionId : String)
    (d : Nat) (h : depthFrom category (fuel + 1) questionId = some d) : 1 ≤ d := by
  simp only [depthFrom] at h
  split at h
  · injection h with hd
    omega
  · cases h

/-- A defined depth strictly dominates the depths of all successors, which
are defined at one unit less fuel. -/
theorem depthFrom_succ (category : IssueCategory) (fuel : Nat) (questionId : String)
    (d : Nat) (nextId : String)
    (h : depthFrom category (fuel + 1) questionId = some d)
    (hmem : nextId ∈ succs category questionId) :
    ∃ d', depthFrom category fuel nextId = some d' ∧ d' + 1 ≤ d := by
  simp only [depthFrom] at h
  split at h
  · rename_i hall
    injection h with hd
    have hin : depthFrom category fuel nextId
        ∈ (succs category questionId).map (depthFrom category fuel) :=
      List.mem_map_of_mem _ hmem
    have hsome := List.all_eq_true.mp hall _ hin
    obtain ⟨d', hd'⟩ := Option.isSome_iff_exists.mp hsome
    refine ⟨d', hd', ?_⟩
    have hmem2 : d' ∈ ((succs category questionId).map
        (depthFrom category fuel)).filterMap id := by
      apply List.mem_filterMap.mpr
      refine ⟨some d', ?_, rfl⟩
      rw [← hd']
      exact hin
    have := le_maxList d' _ hmem2
    omega
  · cases h

/-- A taken transition lands in the successor list. -/
theorem getNextQuestionId_mem_succs (category : IssueCategory)
    (questionId answer nextId : String)
    (h : getNextQuestionId category questionId answer = some nextId) :
    nextId ∈ succs category questionId := by
  unfold getNextQuestionId at h
  cases hq : getQuestion category questionId with
  | none => rw [hq] at h; cases h
  | some question =>
    rw [hq] at h
    unfold succs
    rw [hq]
    simp only [assocGet, Option.map_eq_some'] at h
    obtain ⟨pr, hfind, hpr⟩ := h
    have hmem := List.mem_of_find?_eq_some hfind
    rw [← hpr]
    exact List.mem_map_of_mem _ hmem

/-- The visited sequence is no longer than the question's defined depth. -/
theorem visit_length_le (category : IssueCategory) :
    ∀ (fuel : Nat) (questionId : String) (d : Nat) (answers : List String),
      depthFrom category fuel questionId = some d →
      (visit category questionId answers).length ≤ d := by
  intro fuel
  induction fuel with
  | zero =>
    intro q d answers h
    simp [depthFrom] at h
  | succ fuel ih =>
    intro q d answers h
    cases answers with
    | nil => simpa [visit] using depthFrom_pos category fuel q d h
    | cons a rest =>
      cases hn : getNextQuestionId category q a with
      | none => simpa [visit, hn] using depthFrom_pos category fuel q d h
      | some nxt =>
        obtain ⟨d', hd', hle⟩ := depthFrom_succ category fuel q d nxt h
          (getNextQuestionId_mem_succs category q a nxt hn)
        have hlen := ih nxt d' rest hd'
        simp only [visit, hn, List.length_cons]
        omega

/-- The visited sequence starts at its starting question. -/
theorem visit_head (category : IssueCategory) (questionId : String)
    (answers : List String) :
    (visit category questionId answers).head? = some questionId := by
  cases answers with
  | nil => rfl
  | cons a rest => cases hn : getNextQuestionId category questionId a <;> simp [visit, hn]

/-- With the configuration's edges checked decreasing, a taken transition
strictly decreases rank. -/
theorem rank_lt_of_edge (category : IssueCategory) (questionId answer nextId : String)
    (hed : edgesDecreasing category = true)
    (h : getNextQuestionId category questionId answer = some nextId) :
    rank category nextId < rank category questionId := by
  unfold getNextQuestionId at h
  cases hq : getQuestion category questionId with
  | none => rw [hq] at h; cases h
  | some question =>
    rw [hq] at h
    have hq' := hq
    unfold getQuestion at hq'
    simp only [assocGet, Option.map_eq_some'] at hq'
    obtain ⟨pr, hfindq, hpr2⟩ := hq'
    have hkey : pr.1 = questionId := by
      have := List.find?_some hfindq
      simpa using this
    have hmemq := List.mem_of_find?_eq_some hfindq
    simp only [assocGet, Option.map_eq_some'] at h
    obtain ⟨pe, hfinde, hpe2⟩ := h
    have hmeme := List.mem_of_find?_eq_some hfinde
    have hnxt : nextId ∈ question.nextQuestionMap.map (fun e => e.2) := by
      rw [← hpe2]
      exact List.mem_map_of_mem _ hmeme
    have h1 := List.all_eq_true.mp hed pr hmemq
    have h2 := List.all_eq_true.mp h1 nextId (by rw [hpr2]; exact hnxt)
    have h3 : rank category nextId < rank category pr.1 := by simpa using h2
    rw [hkey] at h3
    exact h3

/-- The visited sequence is a chain of strictly decreasing ranks. -/
theorem visit_chain (category : IssueCategory) (hed : edgesDecreasing category = true) :
    ∀ (answers : List String) (questionId : String),
      List.Chain' (fun x y => rank category y < rank category x)
        (visit category questionId answers) := by
  intro answers
  induction answers with
  | nil => intro q; simp [visit]
  | cons a rest ih =>
    intro q
    cases hn : getNextQuestionId category q a with
    | none => simp [visit, hn]
    | some nxt =>
      simp only [visit, hn]
      rw [List.chain'_cons']
      constructor
      · intro y hy
        rw [visit_head category nxt rest] at hy
        have hy' : nxt = y := by simpa using hy
        rw [← hy']
        exact rank_lt_of_edge category q a nxt hed hn
      · exact ih nxt

/-- With decreasing edges, no question is visited twice. -/
theorem visit_nodup (category : IssueCategory) (hed : edgesDecreasing category = true)
    (questionId : String) (answers : List String) :
    (visit category questionId answers).Nodup := by
  haveI : IsTrans String (fun x y => rank category y < rank category x) :=
    ⟨fun a b c h1 h2 => Nat.lt_trans h2 h1⟩
  have hp := List.chain'_iff_pairwise.mp (visit_chain category hed answers questionId)
  refine hp.imp ?_
  intro a b hab heq
  subst heq
  exact Nat.lt_irrefl _ hab

/-- C2: for every category and every sequence of raw answers, the sequence
of questions visited from the tree's declared root by repeatedly following
`getNextQuestionId` is finite, its length is bounded by the length of the
longest root-to-leaf path of that category's statically declared question
tree (`depthFrom` at the root), and no question is ever revisited — the
navigation cannot loop. -/
theorem visit_bounded_nodup (category : IssueCategory) (answers : List String) :
    ∃ d, depthFrom category 10 (QUESTION_TREES category).rootQuestionId = some d ∧
      (visit category (QUESTION_TREES category).rootQuestionId answers).length ≤ d ∧
      (visit category (QUESTION_TREES category).rootQuestionId answers).Nodup := by
  have hed : edgesDecreasing category = true := by
    cases category <;> decide
  have hsome : (depthFrom category 10 (QUESTION_TREES category).rootQuestionId).isSome
      = true := by
    cases category <;> decide
  obtain ⟨d, hd⟩ := Option.isSome_iff_exists.mp hsome
  exact ⟨d, hd, visit_length_le category 10 _ d answers hd,
    visit_nodup category hed _ answers⟩

/-- Witness: C2 instantiated at DELIVERY_PROBLEM with the scenario-A answer
sequence. -/
theorem visit_bounded_nodup_w :
    ∃ d, depthFrom .DELIVERY_PROBLEM 10
        (QUESTION_TREES .DELIVERY_PROBLEM).rootQuestionId = some d ∧
      (visit .DELIVERY_PROBLEM (QUESTION_TREES .DELIVERY_PROBLEM).rootQuestionId
        ["Package is delayed", "More than 5 days"]).length ≤ d ∧
      (visit .DELIVERY_PROBLEM (QUESTION_TREES .DELIVERY_PROBLEM).rootQuestionId
        ["Package is delayed", "More than 5 days"]).Nodup :=
  visit_bounded_nodup .DELIVERY_PROBLEM ["Package is delayed", "More than 5 days"]

end Support
